import Mathlib

/-!
Verification of the vibetunnel terminal-multiplexer core against its
specification.  The definitions below are shallow embeddings of the Rust
sources:

* `src/web/vibetunnel-pty/src/core/protocol.rs` — the supervisor-channel
  wire framing (`encode_message` / `decode_message`).
* `src/web/native-pty/src/lib.rs` — the `NativePty` session type: registry,
  reader worker, bounded output queue, kill-signal mapping, destroy, and the
  NAPI `ActivityDetector`.
* `src/web/vibetunnel-pty/crates/core/src/session.rs` — `MemorySessionStore`.
* `src/web/vibetunnel-pty/crates/core/src/activity.rs` — the core-crate
  `ActivityDetector`.
* `src/web/vibetunnel-pty/crates/vt-pipe/src/{forwarder.rs,main.rs}` and
  `src/web/vt-pipe/src/{forwarder.rs,session.rs}` — the two forwarder
  variants.

Bytes are modelled as `Nat` (with explicit `% 2 ^ 32` where the source
performs a `u32` cast); Rust `Result`/`Option` become `Except`/`Option`.
-/

/-! ## Wire protocol (vibetunnel-pty/src/core/protocol.rs) -/

/-- Socket protocol message types, `MessageType` in protocol.rs
(discriminants 0x01–0x06). -/
inductive MessageType where
  | stdinData
  | controlCmd
  | statusUpdate
  | stdoutData
  | sessionInfo
  | error
deriving DecidableEq

/-- The `#[repr(u8)]` discriminant of each message type (`msg_type as u8`). -/
def MessageType.toByte : MessageType → Nat
  | .stdinData => 0x01
  | .controlCmd => 0x02
  | .statusUpdate => 0x03
  | .stdoutData => 0x04
  | .sessionInfo => 0x05
  | .error => 0x06

/-- `MessageType::try_from for u8` in protocol.rs: the six codes succeed, any
other byte fails (`bail!("Unknown message type")`); the failure is modelled
as `none` and turned into the error message at the use site in
`decode_message`, exactly as the `?` operator propagates it. -/
def messageTypeOfByte (b : Nat) : Option MessageType :=
  if b = 0x01 then some .stdinData
  else if b = 0x02 then some .controlCmd
  else if b = 0x03 then some .statusUpdate
  else if b = 0x04 then some .stdoutData
  else if b = 0x05 then some .sessionInfo
  else if b = 0x06 then some .error
  else none

/-- Big-endian 4-byte encoding of `n` (`BufMut::put_u32`); the caller has
already reduced `n` below `2 ^ 32`. -/
def toBe32 (n : Nat) : List Nat :=
  [n / 2 ^ 24 % 256, n / 2 ^ 16 % 256, n / 2 ^ 8 % 256, n % 256]

/-- Big-endian read of a byte list (`u32::from_be_bytes` on `data[1..5]`). -/
def fromBe32 (l : List Nat) : Nat :=
  l.foldl (fun acc b => acc * 256 + b) 0

/-- `encode_message` from protocol.rs: 1 type byte, 4 length bytes
(big-endian, `payload.len() as u32` — a wrapping cast, hence the explicit
`% 2 ^ 32`), then the payload. -/
def encode_message (msg_type : MessageType) (payload : List Nat) : List Nat :=
  msg_type.toByte :: (toBe32 (payload.length % 2 ^ 32) ++ payload)

/-- `decode_message` from protocol.rs: `ok none` when fewer than 5 header
bytes or fewer than `length` payload bytes are available; an error for an
unknown type byte; otherwise one frame `(type, payload, bytes_consumed)`. -/
def decode_message (data : List Nat) :
    Except String (Option (MessageType × List Nat × Nat)) :=
  if data.length < 5 then .ok none
  else
    match messageTypeOfByte (data.headD 0) with
    | none => .error ("Unknown message type: " ++ toString (data.headD 0))
    | some msg_type =>
      let length := fromBe32 ((data.drop 1).take 4)
      let total_size := 5 + length
      if data.length < total_size then .ok none
      else .ok (some (msg_type, (data.drop 5).take length, total_size))

theorem messageTypeOfByte_toByte (t : MessageType) :
    messageTypeOfByte t.toByte = some t := by
  cases t <;> rfl

theorem fromBe32_toBe32 (n : Nat) (h : n < 2 ^ 32) :
    fromBe32 (toBe32 n) = n := by
  simp only [fromBe32, toBe32, List.foldl]
  omega

theorem encode_message_length (t : MessageType) (p : List Nat) :
    (encode_message t p).length = 5 + p.length := by
  simp [encode_message, toBe32]
  omega

/-- C1 (amended): for every message type and every payload shorter than
`2 ^ 32` bytes, decoding the buffer produced by `encode_message` yields the
same type, the same payload, and `bytesConsumed = 5 + len payload`. -/
theorem decode_encode_roundtrip (t : MessageType) (p : List Nat)
    (h : p.length < 2 ^ 32) :
    decode_message (encode_message t p) = .ok (some (t, p, 5 + p.length)) := by
  have hm : p.length % 2 ^ 32 = p.length := Nat.mod_eq_of_lt h
  have hcons : encode_message t p =
      t.toByte :: (p.length / 2 ^ 24 % 256) :: (p.length / 2 ^ 16 % 256) ::
        (p.length / 2 ^ 8 % 256) :: (p.length % 256) :: p := by
    simp only [encode_message, toBe32, hm, List.cons_append, List.nil_append]
  have hlen : (encode_message t p).length = 5 + p.length :=
    encode_message_length t p
  have hbe : fromBe32 (((encode_message t p).drop 1).take 4) = p.length := by
    rw [hcons]
    show fromBe32 (toBe32 p.length) = p.length
    exact fromBe32_toBe32 p.length h
  have hhead : (encode_message t p).headD 0 = t.toByte := by rw [hcons]; rfl
  have hdrop : (encode_message t p).drop 5 = p := by rw [hcons]; rfl
  unfold decode_message
  rw [hlen, hhead, messageTypeOfByte_toByte]
  simp only [hbe, hdrop]
  rw [if_neg (by omega), if_neg (by omega), List.take_length]

theorem decode_encode_wrap_aux (p : List Nat) (hp : p.length = 2 ^ 32) :
    decode_message (encode_message .stdinData p) =
      .ok (some (.stdinData, [], 5)) := by
  have hcons : encode_message .stdinData p = 1 :: 0 :: 0 :: 0 :: 0 :: p := by
    simp only [encode_message, hp, MessageType.toByte, toBe32]
    norm_num
  rw [hcons]
  unfold decode_message
  rw [if_neg (by simp)]
  rw [show ((1 : Nat) :: 0 :: 0 :: 0 :: 0 :: p).headD 0 = 1 from rfl]
  rw [show messageTypeOfByte 1 = some .stdinData from rfl]
  rw [show (((1 : Nat) :: 0 :: 0 :: 0 :: 0 :: p).drop 1).take 4 = [0, 0, 0, 0]
    from by simp]
  rw [show fromBe32 [0, 0, 0, 0] = 0 from rfl]
  simp

/-- C1 (counterexample): at payload length exactly `2 ^ 32` the `as u32`
length cast wraps to 0, so decode returns an empty payload and consumes only
the header — the round-trip equation of the claim fails. -/
theorem decode_encode_roundtrip_cx :
    decode_message (encode_message .stdinData (List.replicate (2 ^ 32) 0)) ≠
      .ok (some (.stdinData, List.replicate (2 ^ 32) 0,
        5 + (List.replicate (2 ^ 32) (0 : Nat)).length)) := by
  intro hEq
  rw [decode_encode_wrap_aux (List.replicate (2 ^ 32) 0)
    (List.length_replicate _ _)] at hEq
  have h1 : (some (MessageType.stdinData, ([] : List Nat), 5)) =
      some (MessageType.stdinData, List.replicate (2 ^ 32) 0,
        5 + (List.replicate (2 ^ 32) (0 : Nat)).length) := by
    injection hEq
  have h2 : (MessageType.stdinData, ([] : List Nat), 5) =
      (MessageType.stdinData, List.replicate (2 ^ 32) 0,
        5 + (List.replicate (2 ^ 32) (0 : Nat)).length) := by
    injection h1
  have hnil : ([] : List Nat) = List.replicate (2 ^ 32) 0 :=
    congrArg (fun q => q.2.1) h2
  have h3 := congrArg List.length hnil
  rw [List.length_replicate] at h3
  norm_num at h3

/-- C1 witness: the amended round-trip instantiated at a concrete frame
(`StdoutData`, 3-byte payload). -/
theorem decode_encode_roundtrip_witness :
    decode_message (encode_message .stdoutData [10, 20, 30]) =
      .ok (some (.stdoutData, [10, 20, 30], 5 + 3)) :=
  decode_encode_roundtrip .stdoutData [10, 20, 30] (by norm_num)

/-- The announced payload length of a buffer: the big-endian 32-bit value in
bytes 1–4 (meaningful once the 5-byte header is present). -/
def announcedLen (data : List Nat) : Nat :=
  fromBe32 ((data.drop 1).take 4)

theorem messageTypeOfByte_none_iff (b : Nat) :
    messageTypeOfByte b = none ↔ ¬(1 ≤ b ∧ b ≤ 6) := by
  unfold messageTypeOfByte
  split_ifs <;> simp_all <;> omega

/-- C2: for every input byte sequence, `decode_message` returns exactly one
of: `ok none` (header incomplete, or header complete but not all announced
payload bytes present), one well-formed frame whose payload has exactly the
announced length with `bytesConsumed = 5 + length`, or an error when at
least 5 bytes are present and the first byte is outside 0x01–0x06.  It is a
total function (never panics) and never returns a partial payload. -/
theorem decode_message_total_cases (x : List Nat) :
    (x.length < 5 ∧ decode_message x = .ok none)
    ∨ (5 ≤ x.length ∧ (1 ≤ x.headD 0 ∧ x.headD 0 ≤ 6)
        ∧ x.length < 5 + announcedLen x ∧ decode_message x = .ok none)
    ∨ (∃ t p, 5 ≤ x.length ∧ messageTypeOfByte (x.headD 0) = some t
        ∧ p.length = announcedLen x
        ∧ decode_message x = .ok (some (t, p, 5 + p.length)))
    ∨ (5 ≤ x.length ∧ ¬(1 ≤ x.headD 0 ∧ x.headD 0 ≤ 6)
        ∧ ∃ msg, decode_message x = .error msg) := by
  by_cases h5 : x.length < 5
  · exact Or.inl ⟨h5, by unfold decode_message; rw [if_pos h5]⟩
  · cases hB : messageTypeOfByte (x.headD 0) with
    | none =>
      refine Or.inr (Or.inr (Or.inr ⟨by omega,
        (messageTypeOfByte_none_iff _).mp hB, ?_⟩))
      refine ⟨"Unknown message type: " ++ toString (x.headD 0), ?_⟩
      unfold decode_message
      rw [if_neg h5, hB]
    | some t =>
      by_cases hL : x.length < 5 + announcedLen x
      · refine Or.inr (Or.inl ⟨by omega, ?_, hL, ?_⟩)
        · by_contra hc
          rw [(messageTypeOfByte_none_iff _).mpr hc] at hB
          exact Option.noConfusion hB
        · unfold decode_message
          rw [if_neg h5, hB]
          exact if_pos hL
      · have hplen : ((x.drop 5).take (announcedLen x)).length =
            announcedLen x := by
          simp only [List.length_take, List.length_drop]
          omega
        refine Or.inr (Or.inr (Or.inl
          ⟨t, (x.drop 5).take (announcedLen x), ?_, ?_, ?_, ?_⟩))
        · omega
        · rfl
        · exact hplen
        · unfold decode_message
          rw [if_neg h5, hB]
          simp only [announcedLen] at hL hplen ⊢
          rw [if_neg hL, hplen]

/-! ## Association-list model of the hash maps

`PTY_MANAGER.sessions` and `MemorySessionStore.sessions` are
`HashMap<String, _>`; we model them as association lists with
`HashMap`-style insert (replace any existing binding), get and remove. -/

section AssocMap

variable {α : Type}

/-- `HashMap::get` — the value bound to `id`, if any. -/
def alookup : List (String × α) → String → Option α
  | [], _ => none
  | (k, v) :: t, id => if k = id then some v else alookup t id

/-- Remove every binding of `id` (`HashMap::remove`). -/
def aremove : List (String × α) → String → List (String × α)
  | [], _ => []
  | (k, v) :: t, id => if k = id then aremove t id else (k, v) :: aremove t id

/-- `HashMap::insert`: bind `id` to `v`, replacing any existing binding. -/
def ainsert (m : List (String × α)) (id : String) (v : α) :
    List (String × α) :=
  aremove m id ++ [(id, v)]

theorem alookup_aremove_self (m : List (String × α)) (id : String) :
    alookup (aremove m id) id = none := by
  induction m with
  | nil => rfl
  | cons hd t ih =>
    obtain ⟨k, v⟩ := hd
    by_cases hk : k = id
    · simp [aremove, hk, ih]
    · simp [aremove, alookup, hk, ih]

theorem aremove_idem (m : List (String × α)) (id : String) :
    aremove (aremove m id) id = aremove m id := by
  induction m with
  | nil => rfl
  | cons hd t ih =>
    obtain ⟨k, v⟩ := hd
    by_cases hk : k = id
    · simp [aremove, hk, ih]
    · simp [aremove, hk, ih]

theorem alookup_append_of_none (m₁ m₂ : List (String × α)) (id : String)
    (h : alookup m₁ id = none) :
    alookup (m₁ ++ m₂) id = alookup m₂ id := by
  induction m₁ with
  | nil => rfl
  | cons hd t ih =>
    obtain ⟨k, v⟩ := hd
    by_cases hk : k = id
    · simp [alookup, hk] at h
    · simp only [List.cons_append, alookup, if_neg hk] at h ⊢
      exact ih h

theorem alookup_ainsert_self (m : List (String × α)) (id : String) (v : α) :
    alookup (ainsert m id v) id = some v := by
  unfold ainsert
  rw [alookup_append_of_none _ _ _ (alookup_aremove_self m id)]
  simp [alookup]

end AssocMap

/-! ## NativePty sessions (native-pty/src/lib.rs) -/

/-- The in-registry state of a `PtySession` that the embedding tracks: the
optional push callback (`data_callback`).  The remaining fields — master
PTY, exclusive writer, child handle, reader-thread handle, output receiver,
shutdown sender — are OS/thread resources outside the embedding; callbacks
are identified by an opaque number. -/
structure PtySessionM where
  dataCallback : Option Nat
deriving DecidableEq

/-- The process-wide `PTY_MANAGER.sessions : HashMap<String, Arc<PtySession>>`. -/
def Registry := List (String × PtySessionM)

/-- Errors surfaced by the `NativePty` NAPI methods; every "Session not
found" early return is `sessionNotFound`. -/
inductive PtyErr where
  | sessionNotFound
  | ioFailed (msg : String)
deriving DecidableEq

/-- The signals `NativePty::kill` can deliver (`nix::sys::signal::Signal`
values reachable from the match). -/
inductive KillSignal where
  | sigterm
  | sigkill
  | sigint
deriving DecidableEq

/-- The signal-name match in `NativePty::kill` (lib.rs lines 417–422):
`Some("SIGTERM") => SIGTERM, Some("SIGKILL") => SIGKILL,
Some("SIGINT") => SIGINT, _ => SIGTERM`. -/
def killSignalOf (signal : Option String) : KillSignal :=
  match signal with
  | some v =>
    if v = "SIGTERM" then .sigterm
    else if v = "SIGKILL" then .sigkill
    else if v = "SIGINT" then .sigint
    else .sigterm
  | none => .sigterm

namespace NativePty

/-- Registry-dependent behaviour of `NativePty::write`: look the session up,
fail with "Session not found" when absent; the `write_all`/`flush` on the
session's writer is abstracted as success. -/
def write (reg : Registry) (id : String) : Except PtyErr Unit :=
  match alookup reg id with
  | some _ => .ok ()
  | none => .error .sessionNotFound

/-- Registry-dependent behaviour of `NativePty::resize` (the kernel
`resize` ioctl on the master is abstracted as success). -/
def resize (reg : Registry) (id : String) (cols rows : Nat) :
    Except PtyErr Unit :=
  match alookup reg id with
  | some _ => .ok ()
  | none => .error .sessionNotFound

/-- `NativePty::kill`: not-found sessions error; otherwise the signal chosen
by `killSignalOf` is delivered to the child's pid (the `signal::kill`
syscall is abstracted as success, returning the delivered signal). -/
def kill (reg : Registry) (id : String) (signal : Option String) :
    Except PtyErr KillSignal :=
  match alookup reg id with
  | some _ => .ok (killSignalOf signal)
  | none => .error .sessionNotFound

/-- Registry-dependent behaviour of `NativePty::read_output` (the channel
receive is abstracted; the claim only concerns the not-found path). -/
def read_output (reg : Registry) (id : String) : Except PtyErr Unit :=
  match alookup reg id with
  | some _ => .ok ()
  | none => .error .sessionNotFound

/-- Registry-dependent behaviour of `NativePty::check_exit_status`; the
child poll result for a live session is passed in as `st`. -/
def check_exit_status (reg : Registry) (id : String) (st : Option Int) :
    Except PtyErr (Option Int) :=
  match alookup reg id with
  | some _ => .ok st
  | none => .error .sessionNotFound

/-- `NativePty::set_on_data`: store the callback on the session if present,
else "Session not found". -/
def set_on_data (reg : Registry) (id : String) (cb : Nat) :
    Except PtyErr Registry :=
  match alookup reg id with
  | some s => .ok (ainsert reg id { s with dataCallback := some cb })
  | none => .error .sessionNotFound

/-- `NativePty::destroy`: remove the session from the manager; whether or
not it was present (shutdown signal, child kill/wait and reader join happen
on the removed handle, outside the registry), the method returns `Ok(())`. -/
def destroy (reg : Registry) (id : String) : Except PtyErr Unit × Registry :=
  (.ok (), aremove reg id)

end NativePty

/-- C5: after `destroy()` returns, the id is gone from the registry, every
subsequent operation (write, resize, kill, read_output, check_exit_status,
set_on_data) fails with `SessionNotFound`, and a second `destroy()` is a
no-op that still returns success. -/
theorem destroy_removes_session (reg : Registry) (id : String)
    (cols rows : Nat) (signal : Option String) (st : Option Int) (cb : Nat) :
    (NativePty.destroy reg id).1 = .ok () ∧
    alookup (NativePty.destroy reg id).2 id = none ∧
    NativePty.write (NativePty.destroy reg id).2 id =
      .error .sessionNotFound ∧
    NativePty.resize (NativePty.destroy reg id).2 id cols rows =
      .error .sessionNotFound ∧
    NativePty.kill (NativePty.destroy reg id).2 id signal =
      .error .sessionNotFound ∧
    NativePty.read_output (NativePty.destroy reg id).2 id =
      .error .sessionNotFound ∧
    NativePty.check_exit_status (NativePty.destroy reg id).2 id st =
      .error .sessionNotFound ∧
    NativePty.set_on_data (NativePty.destroy reg id).2 id cb =
      .error .sessionNotFound ∧
    NativePty.destroy (NativePty.destroy reg id).2 id =
      (.ok (), (NativePty.destroy reg id).2) := by
  have hgone : alookup (aremove reg id) id = none :=
    alookup_aremove_self reg id
  refine ⟨rfl, hgone, ?_, ?_, ?_, ?_, ?_, ?_, ?_⟩
  · unfold NativePty.write NativePty.destroy
    rw [hgone]
  · unfold NativePty.resize NativePty.destroy
    rw [hgone]
  · unfold NativePty.kill NativePty.destroy
    rw [hgone]
  · unfold NativePty.read_output NativePty.destroy
    rw [hgone]
  · unfold NativePty.check_exit_status NativePty.destroy
    rw [hgone]
  · unfold NativePty.set_on_data NativePty.destroy
    rw [hgone]
  · unfold NativePty.destroy
    rw [aremove_idem]

/-- C10: for a live session, `kill` maps exactly `"SIGKILL"` to SIGKILL and
exactly `"SIGINT"` to SIGINT; every other argument (absent, `"SIGTERM"`, or
any unrecognized string) yields SIGTERM, and an unrecognized name never
produces an error. -/
theorem kill_signal_mapping (reg : Registry) (id : String)
    (signal : Option String) (h : alookup reg id ≠ none) :
    NativePty.kill reg id signal = .ok (killSignalOf signal) ∧
    (killSignalOf signal = .sigkill ↔ signal = some "SIGKILL") ∧
    (killSignalOf signal = .sigint ↔ signal = some "SIGINT") ∧
    killSignalOf none = .sigterm ∧
    (killSignalOf signal = .sigterm ∨ signal = some "SIGKILL"
      ∨ signal = some "SIGINT") := by
  refine ⟨?_, ?_, ?_, rfl, ?_⟩
  · unfold NativePty.kill
    cases hl : alookup reg id with
    | none => exact absurd hl h
    | some s => rfl
  · cases signal with
    | none => simp [killSignalOf]
    | some v =>
      simp only [killSignalOf]
      split_ifs with h1 h2 h3 <;> simp_all
  · cases signal with
    | none => simp [killSignalOf]
    | some v =>
      simp only [killSignalOf]
      split_ifs with h1 h2 h3 <;> simp_all
  · cases signal with
    | none => exact Or.inl rfl
    | some v =>
      simp only [killSignalOf]
      split_ifs with h1 h2 h3
      · exact Or.inl rfl
      · exact Or.inr (Or.inl (by rw [h2]))
      · exact Or.inr (Or.inr (by rw [h3]))
      · exact Or.inl rfl

/-- C10 witness: a live session with the unrecognized name "SIGHUP" — kill
succeeds and delivers SIGTERM. -/
theorem kill_signal_mapping_witness :
    NativePty.kill [("sess", ⟨none⟩)] "sess" (some "SIGHUP") =
      .ok (killSignalOf (some "SIGHUP")) ∧
    (killSignalOf (some "SIGHUP") = .sigkill ↔
      (some "SIGHUP" : Option String) = some "SIGKILL") ∧
    (killSignalOf (some "SIGHUP") = .sigint ↔
      (some "SIGHUP" : Option String) = some "SIGINT") ∧
    killSignalOf none = .sigterm ∧
    (killSignalOf (some "SIGHUP") = .sigterm
      ∨ (some "SIGHUP" : Option String) = some "SIGKILL"
      ∨ (some "SIGHUP" : Option String) = some "SIGINT") :=
  kill_signal_mapping [("sess", ⟨none⟩)] "sess" (some "SIGHUP") (by
    simp [alookup])

/-! ## MemorySessionStore (crates/core/src/session.rs) -/

/-- `SessionInfo` from crates/core/src/session.rs (also duplicated in
web/vt-pipe/src/session.rs); `created_at : DateTime<Utc>` is modelled as
milliseconds since the epoch. -/
structure SessionInfo where
  id : String
  name : String
  command : List String
  pid : Option Nat
  createdAt : Int
  status : String
  workingDir : String
  cols : Nat
  rows : Nat
  exitCode : Option Int
  titleMode : Option String
  isExternalTerminal : Bool
deriving DecidableEq

/-- `MemorySessionStore`: `sessions : HashMap<String, SessionInfo>`. -/
structure MemorySessionStore where
  sessions : List (String × SessionInfo)

namespace MemorySessionStore

/-- `MemorySessionStore::create_session`:
`self.sessions.insert(info.id.clone(), info); Ok(())` — an unconditional
`HashMap` insert that replaces any existing binding and always succeeds. -/
def create_session (store : MemorySessionStore) (info : SessionInfo) :
    Except String Unit × MemorySessionStore :=
  (.ok (), { sessions := ainsert store.sessions info.id info })

/-- `MemorySessionStore::get_session`. -/
def get_session (store : MemorySessionStore) (id : String) :
    Option SessionInfo :=
  alookup store.sessions id

end MemorySessionStore

/-- C6 (amended): inserting a session under an id that is already present
succeeds (`Ok(())`) and replaces the existing entry — the stores perform a
plain `HashMap::insert`; no `IdCollision` error exists in the code. -/
theorem create_session_overwrites (store : MemorySessionStore)
    (info : SessionInfo) :
    (store.create_session info).1 = .ok () ∧
    (store.create_session info).2.get_session info.id = some info := by
  constructor
  · rfl
  · unfold MemorySessionStore.create_session MemorySessionStore.get_session
    exact alookup_ainsert_self _ _ _

/-- A concrete `SessionInfo` used by the C6 counterexample. -/
def demoInfo (nm : String) : SessionInfo :=
  { id := "sess-1", name := nm, command := ["bash"], pid := some 42
  , createdAt := 0, status := "running", workingDir := "/", cols := 80
  , rows := 24, exitCode := none, titleMode := none
  , isExternalTerminal := true }

/-- C6 (counterexample): with `sess-1` already bound, `create_session` for
the same id returns `Ok` (not `IdCollision`) and the registry's entry for
that id is replaced, not left unchanged. -/
theorem create_session_overwrites_cx :
    (MemorySessionStore.create_session
        ⟨[("sess-1", demoInfo "old")]⟩ (demoInfo "new")).1 = .ok () ∧
    (MemorySessionStore.create_session
        ⟨[("sess-1", demoInfo "old")]⟩ (demoInfo "new")).2.get_session
        "sess-1" = some (demoInfo "new") ∧
    demoInfo "new" ≠ demoInfo "old" := by
  refine ⟨rfl, ?_, by decide⟩
  unfold MemorySessionStore.create_session MemorySessionStore.get_session
  simp [ainsert, aremove, alookup, demoInfo]

/-! ## Reader worker and bounded output queue (native-pty/src/lib.rs) -/

/-- One PTY output chunk (`buffer[..n].to_vec()`, at most 4096 bytes). -/
def Chunk := List Nat
deriving instance DecidableEq for Chunk

/-- Capacity of the per-session output channel:
`bounded::<Vec<u8>>(100)`. -/
def queueCapacity : Nat := 100

/-- `crossbeam_channel::Sender::try_send` on the bounded(100) channel, as
seen from the queue contents: when the queue is below capacity the chunk is
appended at the back (`(queue', false)`); when the queue is full the send
fails with `TrySendError::Full`, the reader prints the "dropping data"
diagnostic and the chunk is discarded (`(queue, true)`). -/
def trySend (q : List Chunk) (d : Chunk) : List Chunk × Bool :=
  if q.length < queueCapacity then (q ++ [d], false) else (q, true)

/-- The queue-facing events of a session: the reader worker's `try_send`
after a successful read, and a consumer's `try_recv`/`recv` which pops the
oldest chunk. -/
inductive QueueOp where
  | enqueue (d : Chunk)
  | dequeue

/-- Effect of one queue event on the queue contents. -/
def applyOp (q : List Chunk) : QueueOp → List Chunk
  | .enqueue d => (trySend q d).1
  | .dequeue => q.tail

/-- Queue contents after a sequence of events starting from `q`. -/
def applyOps (q : List Chunk) (ops : List QueueOp) : List Chunk :=
  ops.foldl applyOp q

theorem applyOp_length_le (q : List Chunk) (op : QueueOp)
    (h : q.length ≤ queueCapacity) :
    (applyOp q op).length ≤ queueCapacity := by
  cases op with
  | enqueue d =>
    unfold applyOp trySend
    split_ifs with hlt
    · simp
      omega
    · exact h
  | dequeue =>
    unfold applyOp
    simp [List.length_tail]
    omega

theorem applyOps_length_le (ops : List QueueOp) (q : List Chunk)
    (h : q.length ≤ queueCapacity) :
    (applyOps q ops).length ≤ queueCapacity := by
  induction ops generalizing q with
  | nil => exact h
  | cons op t ih =>
    unfold applyOps
    rw [List.foldl_cons]
    exact ih _ (applyOp_length_le q op h)

/-- C4: starting from the empty queue, no sequence of reader enqueues and
consumer dequeues ever leaves more than 100 chunks in the queue; when the
queue is already full a `try_send` fails, the new chunk is dropped entirely
and the queue (hence the order of all previously queued chunks) is
unchanged; and a successful `try_send` only appends at the back, so earlier
chunks are never reordered and the dropped chunk is not buffered anywhere. -/
theorem output_queue_bounded (ops : List QueueOp) (q full : List Chunk)
    (d : Chunk) (hfull : full.length = queueCapacity) :
    (applyOps [] ops).length ≤ queueCapacity ∧
    trySend full d = (full, true) ∧
    (trySend q d = (q ++ [d], false) ∨ trySend q d = (q, true)) := by
  refine ⟨applyOps_length_le ops [] (by simp [queueCapacity]), ?_, ?_⟩
  · unfold trySend
    rw [if_neg (by omega)]
  · unfold trySend
    split_ifs
    · exact Or.inl rfl
    · exact Or.inr rfl

/-- C4 witness: at a concrete full queue (100 copies of a chunk) the next
chunk is dropped and the queue is unchanged. -/
theorem output_queue_bounded_witness :
    (applyOps [] [QueueOp.enqueue [7]]).length ≤ queueCapacity ∧
    trySend (List.replicate 100 ([5] : Chunk)) [9] =
      (List.replicate 100 ([5] : Chunk), true) ∧
    (trySend [] ([9] : Chunk) = ([] ++ [[9]], false)
      ∨ trySend [] ([9] : Chunk) = ([], true)) :=
  output_queue_bounded [QueueOp.enqueue [7]] []
    (List.replicate 100 ([5] : Chunk)) [9] (List.length_replicate _ _)

/-! ## NativePty::new step ordering and the reader's registry lookup -/

/-- The effectful steps of `NativePty::new` (lib.rs lines 94–274), in the
order the constructor body performs them. -/
inductive NewStep where
  | openPty
  | spawnChild
  | getPid
  | generateSessionId
  | takeWriter
  | createOutputChannel
  | createShutdownChannel
  | cloneReader
  | spawnReaderThread
  | insertRegistry
  | returnHandle
deriving DecidableEq

/-- Program order of `NativePty::new`: open the PTY (line 109), spawn the
child (144), read its pid (150), generate the session id (154), take the
writer (159), create the bounded output and shutdown channels (166–167),
clone the reader (170), spawn the reader thread (180), and only then insert
the session into `PTY_MANAGER` (251) and return (269). -/
def nativePtyNewSteps : List NewStep :=
  [.openPty, .spawnChild, .getPid, .generateSessionId, .takeWriter,
   .createOutputChannel, .createShutdownChannel, .cloneReader,
   .spawnReaderThread, .insertRegistry, .returnHandle]

/-- What one iteration of the reader thread's `Ok(n)` branch does with a
chunk (lib.rs lines 199–236): fetch the current `data_callback` by looking
the session id up in `PTY_MANAGER`, invoke it when present, then `try_send`
the chunk into the output channel. -/
structure ReaderIterResult where
  callbackInvoked : Bool
  queue : List Chunk
  dropped : Bool
deriving DecidableEq

/-- One reader-thread iteration over a freshly read chunk. -/
def readerIterate (reg : Registry) (id : String) (q : List Chunk)
    (data : Chunk) : ReaderIterResult :=
  let cb := (alookup reg id).bind fun s => s.dataCallback
  let sent := trySend q data
  { callbackInvoked := cb.isSome, queue := sent.1, dropped := sent.2 }

/-- C7 (counterexample): in `NativePty::new` the reader thread is spawned
strictly before the session is inserted into the process-wide registry, so
the code does not establish "the reader worker never starts running before
the session is visible in the registry". -/
theorem reader_spawn_before_insert_cx :
    nativePtyNewSteps.findIdx (· = NewStep.spawnReaderThread) <
      nativePtyNewSteps.findIdx (· = NewStep.insertRegistry) := by
  decide

/-- C7 (amended): `NativePty::new` spawns the reader thread before the
registry insert (program order of the constructor), and a reader iteration
that runs while the session id is not yet in the registry finds no session,
invokes no callback, and still enqueues the chunk via `try_send` — the
worker does not exit and loses no data on that path. -/
theorem reader_spawn_before_insert (reg : Registry) (id : String)
    (q : List Chunk) (d : Chunk) (h : alookup reg id = none) :
    nativePtyNewSteps.findIdx (· = NewStep.spawnReaderThread) <
      nativePtyNewSteps.findIdx (· = NewStep.insertRegistry) ∧
    readerIterate reg id q d =
      { callbackInvoked := false, queue := (trySend q d).1,
        dropped := (trySend q d).2 } := by
  refine ⟨by decide, ?_⟩
  unfold readerIterate
  rw [h]
  rfl

/-- C7 witness: the empty registry before the insert — a lookup miss, no
callback, and the chunk still lands in the queue. -/
theorem reader_spawn_before_insert_witness :
    (nativePtyNewSteps.findIdx (· = NewStep.spawnReaderThread) <
      nativePtyNewSteps.findIdx (· = NewStep.insertRegistry) ∧
    readerIterate [] "sess" [] [1, 2] =
      { callbackInvoked := false, queue := (trySend [] [1, 2]).1,
        dropped := (trySend [] [1, 2]).2 }) :=
  reader_spawn_before_insert [] "sess" [] [1, 2] rfl

/-! ## Forwarder connect handling (two vt-pipe variants)

`Forwarder::run` appears twice in the tree.  The variant in
`vibetunnel-pty/crates/vt-pipe/src/forwarder.rs` (lines 100–114) matches the
result of `SocketClient::connect_with_retry(&socket_path, 10, 100)`, prints
a warning on error and continues with `None`; the variant in
`web/vt-pipe/src/forwarder.rs` (lines 121–133) applies `.context(...)?` to
the same call, so a connect failure propagates out of `run`.  The connected
client is abstracted as `Unit`. -/

/-- Retry parameters at both `connect_with_retry` call sites. -/
def connectMaxRetries : Nat := 10

/-- Backoff between connect attempts, in milliseconds. -/
def connectDelayMs : Nat := 100

/-- What `run` does after the connect attempt resolves. -/
inductive RunStep where
  | enterRawMode
  | forwardIo (chan : Option Unit)
  | leaveRawMode
  | markSessionExited
  | abortWith (msg : String)
deriving DecidableEq

/-- crates/vt-pipe `Forwarder::run`: `match connect of Ok c => Some c | Err e
=> {eprintln warning; None}`, then enter raw mode, forward I/O with the
optional channel, restore the terminal, and mark the session exited. -/
def cratesRunOnConnect (r : Except String Unit) : List RunStep :=
  let socket_client : Option Unit :=
    match r with
    | .ok client => some client
    | .error _ => none
  [.enterRawMode, .forwardIo socket_client, .leaveRawMode,
   .markSessionExited]

/-- web/vt-pipe `Forwarder::run`: `connect_with_retry(...).context(...)?` —
a connect error returns from `run` before raw mode; on success the channel
is always present. -/
def webRunOnConnect (r : Except String Unit) : List RunStep :=
  match r with
  | .ok client =>
    [.enterRawMode, .forwardIo (some client), .leaveRawMode,
     .markSessionExited]
  | .error e => [.abortWith e]

/-- C8 (counterexample): in the web/vt-pipe variant a connect failure aborts
`run` — it does not proceed to raw mode and I/O forwarding with a null
channel as the claim states. -/
theorem forwarder_connect_failure_cx :
    webRunOnConnect (.error "connect failed") ≠
      [RunStep.enterRawMode, RunStep.forwardIo none, RunStep.leaveRawMode,
       RunStep.markSessionExited] := by
  decide

/-- C8 (amended): on connect failure after the retries, the
crates/vt-pipe forwarder reports it and still proceeds to raw mode and I/O
forwarding with an absent supervisor channel, while the web/vt-pipe variant
aborts `run` with the error; on success both proceed with the channel. -/
theorem forwarder_connect_failure (e : String) (c : Unit) :
    cratesRunOnConnect (.error e) =
      [RunStep.enterRawMode, RunStep.forwardIo none, RunStep.leaveRawMode,
       RunStep.markSessionExited] ∧
    cratesRunOnConnect (.ok c) =
      [RunStep.enterRawMode, RunStep.forwardIo (some c),
       RunStep.leaveRawMode, RunStep.markSessionExited] ∧
    webRunOnConnect (.error e) = [RunStep.abortWith e] := by
  exact ⟨rfl, rfl, rfl⟩

/-! ## One-shot --update-title (crates/vt-pipe/src/main.rs lines 126–143) -/

/-- A frame sent over the session socket by the one-shot path:
`SocketClient::send_update_title` encodes one `ControlCmd` whose JSON
payload is `{"cmd":"update-title","title":<title>}`. -/
structure SentFrame where
  msgType : MessageType
  cmd : String
  title : String
deriving DecidableEq

/-- Observable effects of `update_session_title(session_id, new_title)`:
after `load_session` and `connect_with_retry`, it sends exactly one
update-title `ControlCmd` (`client.send_update_title`), and then — contrary
to the supervisor-only policy — rewrites `session.json` itself via
`info.name = new_title; store.update_session(...)`, which
`FileSessionStore::update_session` implements as a fresh
`fs::write("session.json", ...)` of the updated info. -/
structure TitleUpdateRun where
  framesSent : List SentFrame
  sessionJsonWrite : Option SessionInfo
deriving DecidableEq

/-- `update_session_title` from crates/vt-pipe/src/main.rs, applied to the
`SessionInfo` loaded from disk and the new title. -/
def update_session_title (info : SessionInfo) (new_title : String) :
    TitleUpdateRun :=
  { framesSent := [{ msgType := .controlCmd, cmd := "update-title"
                   , title := new_title }]
  , sessionJsonWrite := some { info with name := new_title } }

/-- C9 (counterexample): on a concrete session the one-shot title update
does rewrite `session.json` (with the name replaced), so "session.json
remains unchanged by the forwarder process" is false. -/
theorem update_title_rewrites_json_cx :
    (update_session_title (demoInfo "old") "new title").sessionJsonWrite ≠
      none ∧
    (update_session_title (demoInfo "old") "new title").sessionJsonWrite ≠
      some (demoInfo "old") := by
  constructor
  · intro hc
    exact Option.noConfusion hc
  · intro hc
    have h1 : ({ demoInfo "old" with name := "new title" } : SessionInfo) =
        demoInfo "old" := by
      injection hc
    have h2 := congrArg SessionInfo.name h1
    simp [demoInfo] at h2
  
/-- C9 (amended): the one-shot `--update-title` invocation sends exactly one
update-title `ControlCmd` frame over the existing session's socket, and then
the forwarder itself rewrites `session.json`, storing the metadata with the
`name` field set to the new title (the supervisor is not the only writer). -/
theorem update_title_sends_one_frame (info : SessionInfo) (t : String) :
    (update_session_title info t).framesSent =
      [{ msgType := .controlCmd, cmd := "update-title", title := t }] ∧
    (update_session_title info t).framesSent.length = 1 ∧
    (update_session_title info t).sessionJsonWrite =
      some { info with name := t } := by
  exact ⟨rfl, rfl, rfl⟩

/-! ## Activity detection

Two Rust implementations are embedded:

* `ActivityDetector::detect` in native-pty/src/lib.rs (lines 676–708) with
  pattern
  `(\S)\s+(\w+)…\s*\((\d+)s(?:\s*·\s*(\S?)\s*([\d.]+)\s*k?\s*tokens\s*·\s*[^)]+to\s+interrupt)?\)`
  and ANSI pattern `ESC [ [0-9;]* [a-zA-Z]`;
* `ActivityDetector::detect` in crates/core/src/activity.rs (lines 44–85)
  with pattern
  `(?im)^(\S)\s+([^…\n]+?)…\s*\((\d+)s(?:\s*·\s*(\S?)\s*([\d.]+k?)\s*tokens\s*·\s*[^)]+to\s+interrupt)?\)`
  and ANSI pattern `ESC [ [0-9;]* [mGKHF]`.

The regex engine below implements the leftmost-first (Perl-style) match
semantics of the Rust `regex` crate, with greedy/lazy repetition and capture
groups; repetition stops on an empty iteration, as backtracking engines do
(every repetition body in these patterns consumes a character anyway).
Inputs are decoded with `String::from_utf8_lossy`, which is the identity on
the valid-UTF-8 inputs considered here, so detection operates on `List
Char`.  The character classes `\s`, `\w` and `\d` are Unicode classes in
Rust; the embeddings below cover their ASCII fragments, which is exact for
every character occurring in the embedded patterns' literals and in the
inputs evaluated. -/

/-- Regular-expression ASTs sufficient for the two Claude status
patterns. -/
inductive RE where
  | eps
  | cls (p : Char → Bool)
  | seq (a b : RE)
  | alt (a b : RE)
  | star (greedy : Bool) (a : RE)
  | group (i : Nat) (a : RE)

/-- Capture environment: group index → captured characters. -/
def Caps := Nat → Option (List Char)

def emptyCaps : Caps := fun _ => none

def setCap (caps : Caps) (i : Nat) (v : List Char) : Caps :=
  fun j => if j = i then some v else caps j

/-- Backtracking matcher in continuation-passing style: try to match `r` at
the head of `s`, calling `k` with the remaining input and captures for each
way of matching, in first-preference order; alternation prefers its left
branch, greedy repetition prefers another iteration, lazy repetition
prefers stopping.  `fuel` decreases on every call so the definition is
structurally recursive and kernel-reducible; callers pass fuel exceeding
the maximal backtracking call depth (at most `reDepth r` frames per input
position, as every repetition iteration consumes at least one character),
so exhaustion never occurs at the inputs evaluated. -/
def reMatch : Nat → RE → List Char → Caps →
    (List Char → Caps → Option Caps) → Option Caps
  | 0, _, _, _, _ => none
  | fuel + 1, r, s, caps, k =>
    match r with
    | .eps => k s caps
    | .cls p =>
      match s with
      | [] => none
      | c :: rest => if p c then k rest caps else none
    | .seq a b => reMatch fuel a s caps (fun s1 c1 => reMatch fuel b s1 c1 k)
    | .alt a b =>
      (reMatch fuel a s caps k).orElse (fun _ => reMatch fuel b s caps k)
    | .group i a =>
      reMatch fuel a s caps
        (fun s1 c1 => k s1 (setCap c1 i (s.take (s.length - s1.length))))
    | .star g a =>
      let once :=
        reMatch fuel a s caps (fun s1 c1 =>
          if s1.length < s.length then reMatch fuel (.star g a) s1 c1 k
          else none)
      if g then once.orElse (fun _ => k s caps)
      else (k s caps).orElse (fun _ => once)

/-- Structural size of a pattern, used to budget matcher fuel. -/
def reDepth : RE → Nat
  | .eps => 1
  | .cls _ => 1
  | .seq a b => 1 + reDepth a + reDepth b
  | .alt a b => 1 + reDepth a + reDepth b
  | .star _ a => 1 + reDepth a
  | .group _ a => 1 + reDepth a

/-- Leftmost search: try a match at each successive start position;
`mline` restricts start positions to line starts (the `(?m)^` anchor of the
core pattern); `atLineStart` tracks whether the current position begins a
line. -/
def reSearch (r : RE) (fuel : Nat) (mline : Bool) :
    Bool → List Char → Option Caps
  | atLineStart, s =>
    let here : Option Caps :=
      if mline && !atLineStart then none
      else reMatch fuel r s emptyCaps (fun _ caps => some caps)
    here.orElse fun _ =>
      match s with
      | [] => none
      | c :: rest => reSearch r fuel mline (c == '\n') rest

/-- `Regex::captures`: captures of the leftmost match, if any. -/
def reCaptures (r : RE) (mline : Bool) (s : List Char) : Option Caps :=
  reSearch r ((s.length + 1) * (reDepth r + 1)) mline true s

/-- Literal character. -/
def rlit (c : Char) : RE := .cls (fun d => d == c)

/-- Case-insensitive literal character (the `(?i)` flag of the core
pattern; simple `toLower` folding, exact for ASCII letters). -/
def rliti (c : Char) : RE := .cls (fun d => d.toLower == c.toLower)

/-- Literal word. -/
def rstr (w : String) : RE := w.data.foldr (fun c r => .seq (rlit c) r) .eps

/-- Case-insensitive literal word. -/
def rstri (w : String) : RE := w.data.foldr (fun c r => .seq (rliti c) r) .eps

/-- Sequence of patterns. -/
def rseq (l : List RE) : RE := l.foldr .seq .eps

/-- `\s` (ASCII fragment of the Unicode class: space, tab, newline,
carriage return, vertical tab, form feed). -/
def isWsChar (c : Char) : Bool :=
  c == ' ' || c == '\t' || c == '\n' || c == '\r' || c == '\x0b' || c == '\x0c'

def wsC : RE := .cls isWsChar

/-- `\S`. -/
def nonWsC : RE := .cls (fun c => !isWsChar c)

/-- `\w` (ASCII fragment: alphanumeric or underscore). -/
def wordC : RE := .cls (fun c => c.isAlphanum || c == '_')

/-- `\d`. -/
def digitC : RE := .cls Char.isDigit

/-- `[\d.]`. -/
def digitDotC : RE := .cls (fun c => c.isDigit || c == '.')

/-- `[^)]`. -/
def notCloseParenC : RE := .cls (fun c => c != ')')

/-- `r*` (greedy). -/
def starG (r : RE) : RE := .star true r

/-- `r+` (greedy). -/
def plusG (r : RE) : RE := .seq r (.star true r)

/-- `r+?` (lazy). -/
def plusL (r : RE) : RE := .seq r (.star false r)

/-- `r?` (greedy). -/
def optG (r : RE) : RE := .alt r .eps

/-- The `claude_pattern` of native-pty/src/lib.rs (line 668), transliterated
construct by construct:
`(\S)\s+(\w+)…\s*\((\d+)s(?:\s*·\s*(\S?)\s*([\d.]+)\s*k?\s*tokens\s*·\s*[^)]+to\s+interrupt)?\)`. -/
def nativeClaudePattern : RE := rseq [
  .group 1 nonWsC,
  plusG wsC,
  .group 2 (plusG wordC),
  rlit '…',
  starG wsC,
  rlit '(',
  .group 3 (plusG digitC),
  rlit 's',
  optG (rseq [
    starG wsC, rlit '·', starG wsC,
    .group 4 (optG nonWsC),
    starG wsC,
    .group 5 (plusG digitDotC),
    starG wsC,
    optG (rlit 'k'),
    starG wsC,
    rstr "tokens",
    starG wsC, rlit '·', starG wsC,
    plusG notCloseParenC,
    rstr "to", plusG wsC, rstr "interrupt"
  ]),
  rlit ')'
]

/-- The `claude_pattern` of crates/core/src/activity.rs (line 30),
transliterated construct by construct (the `(?m)^` anchor is handled by
`reCaptures _ true`, the `(?i)` flag by the case-insensitive literals):
`(?im)^(\S)\s+([^…\n]+?)…\s*\((\d+)s(?:\s*·\s*(\S?)\s*([\d.]+k?)\s*tokens\s*·\s*[^)]+to\s+interrupt)?\)`. -/
def coreClaudePattern : RE := rseq [
  .group 1 nonWsC,
  plusG wsC,
  .group 2 (plusL (.cls (fun c => c != '…' && c != '\n'))),
  rlit '…',
  starG wsC,
  rlit '(',
  .group 3 (plusG digitC),
  rliti 's',
  optG (rseq [
    starG wsC, rlit '·', starG wsC,
    .group 4 (optG nonWsC),
    starG wsC,
    .group 5 (.seq (plusG digitDotC) (optG (rliti 'k'))),
    starG wsC,
    rstri "tokens",
    starG wsC, rlit '·', starG wsC,
    plusG notCloseParenC,
    rstri "to", plusG wsC, rstri "interrupt"
  ]),
  rlit ')'
]

/-- Final byte class of the core ANSI pattern `\x1b\[[0-9;]*[mGKHF]`. -/
def ansiFinalCore (c : Char) : Bool :=
  c == 'm' || c == 'G' || c == 'K' || c == 'H' || c == 'F'

/-- Final byte class of the native ANSI pattern `\x1b\[[0-9;]*[a-zA-Z]`. -/
def ansiFinalNative (c : Char) : Bool :=
  ('a' ≤ c && c ≤ 'z') || ('A' ≤ c && c ≤ 'Z')

/-- `[0-9;]`. -/
def ansiParamChar (c : Char) : Bool := c.isDigit || c == ';'

/-- `Regex::replace_all(_, "")` for the ANSI patterns: scan left to right;
at an ESC that starts `ESC '[' params final` drop the whole sequence and
continue after it, otherwise keep the character (a failed match at ESC
cannot be saved by a later start inside the sequence, since the pattern
begins with ESC).  `fuel` (initially the input length, which at least one
consumed character per step makes sufficient) keeps the recursion
structural. -/
def stripAnsiFuel (fin : Char → Bool) : Nat → List Char → List Char
  | 0, s => s
  | _ + 1, [] => []
  | fuel + 1, c :: rest =>
    if c == '\x1b' then
      match rest with
      | '[' :: r2 =>
        match r2.dropWhile ansiParamChar with
        | f :: r4 =>
          if fin f then stripAnsiFuel fin fuel r4
          else c :: stripAnsiFuel fin fuel rest
        | [] => c :: stripAnsiFuel fin fuel rest
      | _ => c :: stripAnsiFuel fin fuel rest
    else c :: stripAnsiFuel fin fuel rest

def stripAnsi (fin : Char → Bool) (s : List Char) : List Char :=
  stripAnsiFuel fin s.length s

/-- `Activity` as returned over NAPI (native-pty/src/lib.rs lines 711–716);
the wall-clock `timestamp` is a parameter of the embedding. -/
structure NapiActivity where
  timestamp : Int
  status : String
  details : Option String
deriving DecidableEq

/-- `ActivityDetector::detect` of native-pty/src/lib.rs (lines 676–708):
strip ANSI sequences, take the captures of the leftmost pattern match, and
build `status = "<indicator> <action>"` and `details = "<duration>s"` or
`"<duration>s, <dir><tokens>k"` when the extended segment matched. -/
def nativeDetect (ts : Int) (data : List Char) : Option NapiActivity :=
  let clean := stripAnsi ansiFinalNative data
  match reCaptures nativeClaudePattern false clean with
  | none => none
  | some caps => do
    let indicator ← caps 1
    let action ← caps 2
    let duration ← caps 3
    let direction := caps 4
    let tok := caps 5
    let details :=
      match direction, tok with
      | some d, some tk =>
        some (String.mk duration ++ "s, " ++ String.mk d ++ String.mk tk
          ++ "k")
      | _, _ => some (String.mk duration ++ "s")
    some { timestamp := ts
         , status := String.mk indicator ++ " " ++ String.mk action
         , details := details }

/-- `str::trim` (ASCII whitespace fragment). -/
def trimChars (s : List Char) : List Char :=
  ((s.dropWhile isWsChar).reverse.dropWhile isWsChar).reverse

/-- `str::parse::<u32>().ok()` restricted to plain digit strings, the only
shape group 3 (`\d+`) can produce. -/
def parseU32 (s : List Char) : Option Nat :=
  if s.isEmpty then none
  else if s.all Char.isDigit then
    let v := s.foldl (fun acc c => acc * 10 + (c.toNat - '0'.toNat)) 0
    if v < 2 ^ 32 then some v else none
  else none

/-- `Activity` of crates/core/src/activity.rs (lines 10–18). -/
structure CoreActivity where
  timestamp : Int
  status : String
  details : Option String
  indicator : Option String
  duration : Option Nat
  tokens : Option String
deriving DecidableEq

/-- `ActivityDetector::detect` of crates/core/src/activity.rs (lines
44–85): strip ANSI sequences, match the core pattern; `status` is the
trimmed action capture (group 2, without the indicator), group 5 keeps its
`k` suffix, and `details` is `"<duration>s"` or
`"<duration>s · <tokens> tokens"`. -/
def coreDetect (ts : Int) (data : List Char) : Option CoreActivity :=
  let clean := stripAnsi ansiFinalCore data
  match reCaptures coreClaudePattern true clean with
  | none => none
  | some caps => do
    let indicator := (caps 1).map String.mk
    let st ← caps 2
    let durStr ← caps 3
    let duration := parseU32 durStr
    if (caps 4).isSome then
      let tokPre := ((caps 4).map String.mk).getD ""
      let tokCount := ((caps 5).map String.mk).getD ""
      some { timestamp := ts, status := String.mk (trimChars st)
           , details := some (toString (duration.getD 0) ++ "s · " ++
               (tokPre ++ tokCount) ++ " tokens")
           , indicator := indicator, duration := duration
           , tokens := some (tokPre ++ tokCount) }
    else
      some { timestamp := ts, status := String.mk (trimChars st)
           , details := some (toString (duration.getD 0) ++ "s")
           , indicator := indicator, duration := duration, tokens := none }

/-- The input of the claim (valid UTF-8, so `from_utf8_lossy` is the
identity on it). -/
def claudeStatusBytes : List Char :=
  "\x1b[32m✻ Crafting…\x1b[0m (205s · ↑ 6.0k tokens · esc to interrupt)".data

/-- C3 (counterexample): the crates/core `ActivityDetector::detect` on the
claimed input returns `status = "Crafting"` — the indicator is *not*
prepended — and `details = "205s · ↑6.0k tokens"`, not `"205s, ↑6.0k"`;
both fields contradict the claim for this implementation. -/
theorem core_detect_status_cx :
    (coreDetect 0 claudeStatusBytes).map CoreActivity.status =
      some "Crafting" ∧
    (coreDetect 0 claudeStatusBytes).map CoreActivity.details =
      some (some "205s · ↑6.0k tokens") ∧
    ("Crafting" : String) ≠ "✻ Crafting" ∧
    (some "205s · ↑6.0k tokens" : Option String) ≠ some "205s, ↑6.0k" := by
  refine ⟨rfl, rfl, by decide, by decide⟩

/-- C3 (amended): on the claimed input the native-pty
`ActivityDetector::detect` returns, for any timestamp, exactly the claimed
record — `status = "✻ Crafting"` (indicator followed by action) and
`details = "205s, ↑6.0k"` — while the crates/core variant returns
`status = "Crafting"` (indicator in its separate field) and
`details = "205s · ↑6.0k tokens"`. -/
theorem native_detect_claude_status (ts : Int) :
    nativeDetect ts claudeStatusBytes =
      some { timestamp := ts, status := "✻ Crafting"
           , details := some "205s, ↑6.0k" } ∧
    coreDetect ts claudeStatusBytes =
      some { timestamp := ts, status := "Crafting"
           , details := some "205s · ↑6.0k tokens", indicator := some "✻"
           , duration := some 205, tokens := some "↑6.0k" } :=
  ⟨rfl, rfl⟩
